import Mathlib

/-!
Verification of the duplicate detection and resolution engine in
src/duplicate_checker.py.

Embedding conventions:
* A pandas dataframe is a list of rows.  Each row carries its pandas index
  label (an integer), the optional value of the id column (none when the
  column is absent, in which case row.get falls back to the positional
  index), the name and coordinate columns, and the remaining pass-through
  columns as an association list.
* Python floats are modelled as real numbers; the integer-valued
  percentage returned by the similarity scorer is modelled as a rational.
* The external library calls that the engine delegates to (rapidfuzz
  fuzz.ratio and str.lower) are modelled from the spec, as noted on their
  definitions; everything else is translated directly from the source.
* Database and file side effects are modelled as explicit effect records,
  with a boolean oracle standing for availability of the durable store.
-/

/-- A location record: one row of the dataframe handled by the checker.
index is the pandas index label of the row; id is the value of the id
column when that column exists. -/
structure Row where
  index : Int
  id : Option Int
  name : String
  latitude : ℝ
  longitude : ℝ
  attrs : List (String × String)

/-- Default row used to totalise positional lookup (never reached for
in-range positions). -/
def emptyRow : Row :=
  { index := 0, id := none, name := "", latitude := 0, longitude := 0, attrs := [] }

/-- Positional row access, df.iloc i in the source. -/
def rowAt (df : List Row) (i : Nat) : Row := df.getD i emptyRow

/-- Modelled from the spec: Python str.lower for the ASCII range (the
case-insensitive normalisation the scorer and the fingerprint apply). -/
def lowerChar (c : Char) : Char :=
  if 65 ≤ c.toNat ∧ c.toNat ≤ 90 then Char.ofNat (c.toNat + 32) else c

/-- Modelled from the spec: Python str.lower applied characterwise. -/
def lowerStr (s : String) : String := String.mk (s.data.map lowerChar)

/-- Length of a longest common subsequence of two character lists. -/
def lcsLen (l1 l2 : List Char) : Nat :=
  match l1, l2 with
  | [], _ => 0
  | _ :: _, [] => 0
  | a :: as, b :: bs =>
    if a = b then lcsLen as bs + 1
    else max (lcsLen (a :: as) bs) (lcsLen as (b :: bs))
termination_by l1.length + l2.length
decreasing_by all_goals (simp only [List.length_cons]; omega)

/-- Modelled from the spec: rapidfuzz fuzz.ratio, the normalized indel
similarity on a 0 to 100 scale.  The indel distance of two strings a, b is
len a + len b - 2 * lcs a b, so the normalized similarity is
200 * lcs / (len a + len b); two empty strings score 100. -/
def fuzzRatio (s1 s2 : String) : ℚ :=
  if s1.data.length + s2.data.length = 0 then 100
  else 200 * (lcsLen s1.data s2.data : ℚ) / (s1.data.length + s2.data.length)

namespace DuplicateChecker

/-- Similarity score between two names, duplicate_checker.py lines 47-49:
fuzz.ratio applied to the lowercased names. -/
def calculate_similarity (name1 name2 : String) : ℚ :=
  fuzzRatio (lowerStr name1) (lowerStr name2)

end DuplicateChecker

/-- Degrees to radians, math.radians in the source. -/
noncomputable def radians (x : ℝ) : ℝ := x * Real.pi / 180

/-- Two-argument arctangent, math.atan2 in the source (C convention,
atan2 0 0 = 0 as in Python). -/
noncomputable def atan2 (y x : ℝ) : ℝ :=
  if 0 < x then Real.arctan (y / x)
  else if x < 0 ∧ 0 ≤ y then Real.arctan (y / x) + Real.pi
  else if x < 0 ∧ y < 0 then Real.arctan (y / x) - Real.pi
  else if x = 0 ∧ 0 < y then Real.pi / 2
  else if x = 0 ∧ y < 0 then -(Real.pi / 2)
  else 0

open Classical in
/-- Python round to 2 decimal places (banker's rounding on exact halves),
used for the reported distance_meters. -/
noncomputable def pyRound2 (x : ℝ) : ℝ :=
  let y := x * 100
  ((if Int.fract y = 1 / 2 then 2 * round (y / 2) else round y : ℤ) : ℝ) / 100

/-- The mutable state of a DuplicateChecker instance: the database engine
(none when the connection could not be built) and the two detection
thresholds, duplicate_checker.py lines 16-45. -/
structure DuplicateChecker where
  engine : Option Unit
  name_similarity_threshold : ℚ
  distance_threshold : ℝ

namespace DuplicateChecker

/-- Constructor of DuplicateChecker, lines 16-45.  Building the
SQLAlchemy engine from db_config or the environment is external I/O; the
resulting engine state is taken as the parameter.  The thresholds are set
unconditionally to 85 and 50. -/
def init (engine : Option Unit) : DuplicateChecker :=
  { engine := engine, name_similarity_threshold := 85, distance_threshold := 50 }

/-- Haversine distance in meters, duplicate_checker.py lines 51-63. -/
noncomputable def calculate_distance (lat1 lon1 lat2 lon2 : ℝ) : ℝ :=
  let R : ℝ := 6371000
  let rlat1 := radians lat1
  let rlon1 := radians lon1
  let rlat2 := radians lat2
  let rlon2 := radians lon2
  let dlat := rlat2 - rlat1
  let dlon := rlon2 - rlon1
  let a := Real.sin (dlat / 2) ^ 2 +
    Real.cos rlat1 * Real.cos rlat2 * Real.sin (dlon / 2) ^ 2
  let c := 2 * atan2 (Real.sqrt a) (Real.sqrt (1 - a))
  R * c

end DuplicateChecker

/-- One side of a reported duplicate pair: the dictionaries built at
lines 104-113 of the source. -/
structure Loc where
  id : Int
  name : String
  coordinates : ℝ × ℝ

/-- A detected duplicate pair, the duplicate_info dictionary of
lines 103-116. -/
structure DupInfo where
  location_1 : Loc
  location_2 : Loc
  similarity_score : ℚ
  distance_meters : ℝ

namespace DuplicateChecker

/-- The classification test of lines 97-100: name similarity at or above
the name threshold and distance at or below the distance threshold. -/
def isDuplicate (c : DuplicateChecker) (r1 r2 : Row) : Prop :=
  c.name_similarity_threshold ≤ calculate_similarity r1.name r2.name ∧
  calculate_distance r1.latitude r1.longitude r2.latitude r2.longitude ≤
    c.distance_threshold

/-- The duplicate_info record built for the pair of rows at positions i
and j, lines 103-116.  The id fields use row.get with the positional
index as default, and the reported distance is rounded to 2 decimals. -/
noncomputable def dupInfoOf (df : List Row) (i j : Nat) : DupInfo :=
  let r1 := rowAt df i
  let r2 := rowAt df j
  { location_1 := { id := r1.id.getD i, name := r1.name, coordinates := (r1.latitude, r1.longitude) },
    location_2 := { id := r2.id.getD j, name := r2.name, coordinates := (r2.latitude, r2.longitude) },
    similarity_score := calculate_similarity r1.name r2.name,
    distance_meters := pyRound2 (calculate_distance r1.latitude r1.longitude r2.latitude r2.longitude) }

end DuplicateChecker

/-- Index pairs visited by the double loop of lines 79-80: i over
range n, j over range from i plus 1 to n, in scan order. -/
def pairIndices (n : Nat) : List (Nat × Nat) :=
  (List.range n).flatMap fun i =>
    (List.range' (i + 1) (n - (i + 1))).map fun j => (i, j)

namespace DuplicateChecker

open Classical in
/-- Duplicate detection, duplicate_checker.py lines 70-135: every
unordered pair in scan order is classified, and the matching pairs are
appended in loop order.  Printing and timing are side-effect free
reporting and are omitted. -/
noncomputable def detect_duplicates (c : DuplicateChecker) (df : List Row) :
    List DupInfo :=
  (pairIndices df.length).filterMap fun p =>
    if isDuplicate c (rowAt df p.1) (rowAt df p.2)
    then some (dupInfoOf df p.1 p.2) else none

/-- Duplicate removal, duplicate_checker.py lines 166-184: collect the
location_2 ids of all pairs and keep the rows of df whose pandas index
label is not in that collection.  The source keeps the ids in a set; a
list has the same membership semantics. -/
def clean_duplicates (df : List Row) (duplicates : List DupInfo) : List Row :=
  let ids_to_remove : List Int := duplicates.map fun d => d.location_2.id
  df.filter fun row => decide (row.index ∉ ids_to_remove)

end DuplicateChecker

/-- A row of the duplicate_log table, lines 148-158. -/
structure AuditRow where
  location_id_1 : Int
  location_id_2 : Int
  similarity_score : ℚ
  distance_meters : ℝ
  action_taken : String

/-- Observable outcome of log_duplicates_to_db: rows committed to the
duplicate_log table, fallback files written (the function writes none),
console messages, and whether an exception escaped to the caller.  The
Python function itself always returns None. -/
structure LogResult where
  inserted : List AuditRow
  fileWrites : List (List Row)
  printed : List String
  raised : Option String

/-- Observable outcome of save_to_database: the dataframe that replaced
the locations table if the durable write committed, fallback CSV files
written, console messages, and whether an exception escaped. -/
structure SaveResult where
  dbReplaced : Option (List Row)
  fileWrites : List (List Row)
  printed : List String
  raised : Option String

namespace DuplicateChecker

/-- Audit logging, duplicate_checker.py lines 137-164.  With no engine or
no duplicates the function returns at once.  Otherwise the insert of all
rows and the commit either succeed together (storeOk) or raise, and the
except clause prints a warning and swallows the exception.  No file
fallback exists on this path. -/
def log_duplicates_to_db (c : DuplicateChecker) (storeOk : Bool)
    (duplicates : List DupInfo) : LogResult :=
  match c.engine, duplicates with
  | none, _ =>
    { inserted := [], fileWrites := [], printed := [], raised := none }
  | some _, [] =>
    { inserted := [], fileWrites := [], printed := [], raised := none }
  | some _, d :: ds =>
    if storeOk then
      { inserted := (d :: ds).map fun dup =>
          { location_id_1 := dup.location_1.id, location_id_2 := dup.location_2.id,
            similarity_score := dup.similarity_score,
            distance_meters := dup.distance_meters,
            action_taken := "removed_duplicate" },
        fileWrites := [], printed := ["Logged duplicate detections to database"],
        raised := none }
    else
      { inserted := [], fileWrites := [],
        printed := ["Failed to log duplicates"], raised := none }

/-- Persisting the cleaned dataframe, duplicate_checker.py lines 226-262.
With no engine the data goes to a CSV file and the function returns.
Otherwise the delete-and-insert transaction either commits (storeOk) or
raises, and the except clause prints the error, writes the CSV fallback
and swallows the exception.  The data_hash column added before the insert
and the regeneration of the prices and social_metrics tables only shape
the committed data and are not modelled.  Every path returns None. -/
def save_to_database (c : DuplicateChecker) (storeOk : Bool)
    (df : List Row) : SaveResult :=
  match c.engine with
  | none =>
    { dbReplaced := none, fileWrites := [df],
      printed := ["No database connection. Saving to CSV instead"],
      raised := none }
  | some _ =>
    if storeOk then
      { dbReplaced := some df, fileWrites := [],
        printed := ["Replaced database with cleaned locations"],
        raised := none }
    else
      { dbReplaced := none, fileWrites := [df],
        printed := ["Database error", "Saved to CSV instead"],
        raised := none }

end DuplicateChecker

/-- Modelled from the spec: a well-formed record has a non-empty name and
coordinates within the valid latitude and longitude ranges.  The source
contains no validation code; this predicate only states the spec's
validity notion. -/
def isValidRecord (r : Row) : Prop :=
  r.name ≠ "" ∧ -90 ≤ r.latitude ∧ r.latitude ≤ 90 ∧
    -180 ≤ r.longitude ∧ r.longitude ≤ 180

/-- Two identities are joined by one flagged pair of the list. -/
def pairEdge (duplicates : List DupInfo) (x y : Int) : Prop :=
  ∃ d ∈ duplicates,
    (d.location_1.id = x ∧ d.location_2.id = y) ∨
    (d.location_1.id = y ∧ d.location_2.id = x)

/-- Two identities lie in the same connected group of flagged pairs. -/
def linked (duplicates : List DupInfo) : Int → Int → Prop :=
  Relation.ReflTransGen (pairEdge duplicates)

theorem lcsLen_nil_left (l : List Char) : lcsLen [] l = 0 := by
  cases l <;> simp [lcsLen]

theorem lcsLen_nil_right (l : List Char) : lcsLen l [] = 0 := by
  cases l <;> simp [lcsLen]

theorem lcsLen_comm (l1 l2 : List Char) : lcsLen l1 l2 = lcsLen l2 l1 := by
  have H : ∀ (n : Nat) (u v : List Char), u.length + v.length ≤ n →
      lcsLen u v = lcsLen v u := by
    intro n
    induction n with
    | zero =>
      intro u v h
      cases u with
      | cons a as => simp only [List.length_cons] at h; omega
      | nil =>
        cases v with
        | cons b bs => simp only [List.length_cons] at h; omega
        | nil => rfl
    | succ n ih =>
      intro u v h
      cases u with
      | nil => cases v <;> simp [lcsLen]
      | cons a as =>
        cases v with
        | nil => simp [lcsLen]
        | cons b bs =>
          simp only [lcsLen]
          by_cases hab : a = b
          · subst hab
            rw [if_pos rfl, if_pos rfl]
            have h0 : as.length + bs.length ≤ n := by
              simp only [List.length_cons] at h; omega
            rw [ih as bs h0]
          · have hba : ¬ b = a := fun hh => hab hh.symm
            rw [if_neg hab, if_neg hba]
            have h1 : (a :: as).length + bs.length ≤ n := by
              simp only [List.length_cons] at h ⊢; omega
            have h2 : as.length + (b :: bs).length ≤ n := by
              simp only [List.length_cons] at h ⊢; omega
            rw [ih (a :: as) bs h1, ih as (b :: bs) h2, Nat.max_comm]
  exact H (l1.length + l2.length) l1 l2 le_rfl

theorem lcsLen_self (l : List Char) : lcsLen l l = l.length := by
  induction l with
  | nil => simp [lcsLen]
  | cons a as ih => simp [lcsLen, ih]

theorem toNat_ofNat_of_valid {n : Nat} (h : n.isValidChar) :
    (Char.ofNat n).toNat = n := by
  rw [Char.ofNat, dif_pos h]
  rfl

theorem lowerChar_lowerChar (c : Char) :
    lowerChar (lowerChar c) = lowerChar c := by
  unfold lowerChar
  by_cases h : 65 ≤ c.toNat ∧ c.toNat ≤ 90
  · rw [if_pos h]
    have hv : (c.toNat + 32).isValidChar := Or.inl (by omega)
    have ht : (Char.ofNat (c.toNat + 32)).toNat = c.toNat + 32 :=
      toNat_ofNat_of_valid hv
    rw [if_neg]
    rw [ht]
    omega
  · rw [if_neg h, if_neg h]

theorem lowerStr_lowerStr (s : String) : lowerStr (lowerStr s) = lowerStr s := by
  simp [lowerStr, List.map_map, Function.comp_def, lowerChar_lowerChar]

theorem fuzzRatio_comm (s1 s2 : String) : fuzzRatio s1 s2 = fuzzRatio s2 s1 := by
  unfold fuzzRatio
  rw [lcsLen_comm, Nat.add_comm s1.data.length s2.data.length, add_comm
    (s1.data.length : ℚ) (s2.data.length : ℚ)]

theorem data_ne_nil_of_ne_empty {s : String} (h : s ≠ "") : s.data ≠ [] := by
  intro hd
  apply h
  cases s with
  | mk d =>
    have hd2 : d = [] := hd
    cases hd2
    rfl

theorem fuzzRatio_self {s : String} (h : s ≠ "") : fuzzRatio s s = 100 := by
  have hd : s.data ≠ [] := data_ne_nil_of_ne_empty h
  have hlen : 0 < s.data.length := List.length_pos.2 hd
  unfold fuzzRatio
  rw [if_neg (by omega), lcsLen_self]
  have hq : ((s.data.length : ℚ) + (s.data.length : ℚ)) ≠ 0 := by
    have h0 : (0 : ℚ) < (s.data.length : ℚ) + (s.data.length : ℚ) := by
      exact_mod_cast Nat.add_pos_left hlen s.data.length
    exact ne_of_gt h0
  rw [div_eq_iff hq]
  ring

theorem fuzzRatio_empty_empty : fuzzRatio "" "" = 100 := by
  unfold fuzzRatio
  rfl

theorem fuzzRatio_empty_left {s : String} (h : s ≠ "") : fuzzRatio "" s = 0 := by
  have hd : s.data ≠ [] := data_ne_nil_of_ne_empty h
  have hlen : 0 < s.data.length := List.length_pos.2 hd
  have he : ("" : String).data = [] := rfl
  unfold fuzzRatio
  rw [he, lcsLen_nil_left]
  rw [if_neg (by simp only [List.length_nil]; omega)]
  simp

theorem fuzzRatio_empty_right {s : String} (h : s ≠ "") : fuzzRatio s "" = 0 := by
  rw [fuzzRatio_comm]
  exact fuzzRatio_empty_left h

theorem lowerStr_empty_iff (s : String) : lowerStr s = "" ↔ s = "" := by
  constructor
  · intro h
    have hmap : s.data.map lowerChar = [] := congrArg String.data h
    have hnil : s.data = [] := List.map_eq_nil_iff.1 hmap
    cases s with
    | mk d =>
      have hd2 : d = [] := hnil
      cases hd2
      rfl
  · intro h
    rw [h]
    rfl

namespace DuplicateChecker

theorem calculate_similarity_comm (a b : String) :
    calculate_similarity a b = calculate_similarity b a := by
  unfold calculate_similarity
  exact fuzzRatio_comm _ _

theorem calculate_similarity_self {a : String} (h : a ≠ "") :
    calculate_similarity a a = 100 := by
  unfold calculate_similarity
  exact fuzzRatio_self ((not_iff_not.2 (lowerStr_empty_iff a)).2 h)

theorem calculate_similarity_lower (a b : String) :
    calculate_similarity a b = calculate_similarity (lowerStr a) (lowerStr b) := by
  unfold calculate_similarity
  rw [lowerStr_lowerStr, lowerStr_lowerStr]

end DuplicateChecker

theorem arctan_nonneg_of_nonneg {t : ℝ} (ht : 0 ≤ t) : 0 ≤ Real.arctan t := by
  have h := Real.arctan_strictMono.monotone ht
  rwa [Real.arctan_zero] at h

theorem atan2_nonneg {y x : ℝ} (hy : 0 ≤ y) (hx : 0 ≤ x) : 0 ≤ atan2 y x := by
  unfold atan2
  rcases lt_or_eq_of_le hx with hx' | hx'
  · rw [if_pos hx']
    exact arctan_nonneg_of_nonneg (div_nonneg hy hx'.le)
  · have hx0 : x = 0 := hx'.symm
    rw [if_neg (by rw [hx0]; exact lt_irrefl 0)]
    rw [if_neg (by rw [hx0]; simp)]
    rw [if_neg (by rw [hx0]; simp)]
    by_cases hy' : 0 < y
    · rw [if_pos ⟨hx0, hy'⟩]
      have := Real.pi_pos
      linarith
    · rw [if_neg fun hc => hy' hc.2]
      rw [if_neg fun hc => absurd hc.2 (not_lt.2 hy)]

namespace DuplicateChecker

theorem calculate_distance_nonneg (lat1 lon1 lat2 lon2 : ℝ) :
    0 ≤ calculate_distance lat1 lon1 lat2 lon2 := by
  simp only [calculate_distance]
  have h := atan2_nonneg (Real.sqrt_nonneg (Real.sin ((radians lat2 - radians lat1) / 2) ^ 2 +
      Real.cos (radians lat1) * Real.cos (radians lat2) *
        Real.sin ((radians lon2 - radians lon1) / 2) ^ 2))
    (Real.sqrt_nonneg (1 - (Real.sin ((radians lat2 - radians lat1) / 2) ^ 2 +
      Real.cos (radians lat1) * Real.cos (radians lat2) *
        Real.sin ((radians lon2 - radians lon1) / 2) ^ 2)))
  have h2 : (0 : ℝ) ≤ 2 := by norm_num
  have hR : (0 : ℝ) ≤ 6371000 := by norm_num
  exact mul_nonneg hR (mul_nonneg h2 h)

theorem calculate_distance_self (lat lon : ℝ) :
    calculate_distance lat lon lat lon = 0 := by
  simp only [calculate_distance]
  rw [sub_self (radians lat), sub_self (radians lon)]
  norm_num [Real.sin_zero, Real.sqrt_zero, Real.sqrt_one, atan2, Real.arctan_zero]

end DuplicateChecker

theorem sin_half_sq_swap (x y : ℝ) :
    Real.sin ((x - y) / 2) ^ 2 = Real.sin ((y - x) / 2) ^ 2 := by
  have hx : (x - y) / 2 = -((y - x) / 2) := by ring
  rw [hx, Real.sin_neg, neg_sq]

namespace DuplicateChecker

theorem calculate_distance_comm (lat1 lon1 lat2 lon2 : ℝ) :
    calculate_distance lat1 lon1 lat2 lon2 = calculate_distance lat2 lon2 lat1 lon1 := by
  have ha : ∀ x1 y1 x2 y2 : ℝ,
      Real.sin ((x2 - x1) / 2) ^ 2 + Real.cos x1 * Real.cos x2 * Real.sin ((y2 - y1) / 2) ^ 2 =
      Real.sin ((x1 - x2) / 2) ^ 2 + Real.cos x2 * Real.cos x1 * Real.sin ((y1 - y2) / 2) ^ 2 := by
    intro x1 y1 x2 y2
    rw [sin_half_sq_swap x2 x1, sin_half_sq_swap y2 y1, mul_comm (Real.cos x1) (Real.cos x2)]
  simp only [calculate_distance]
  rw [ha]

theorem calculate_distance_pole_zero :
    calculate_distance 90 0 90 10 = 0 := by
  have h90 : radians 90 = Real.pi / 2 := by
    unfold radians
    ring
  simp only [calculate_distance]
  rw [h90, sub_self]
  norm_num [Real.cos_pi_div_two, Real.sin_zero, Real.sqrt_zero, Real.sqrt_one, atan2,
    Real.arctan_zero]

end DuplicateChecker

theorem mem_pairIndices {n a b : Nat} :
    (a, b) ∈ pairIndices n ↔ a < b ∧ b < n := by
  unfold pairIndices
  simp only [List.mem_flatMap, List.mem_map, List.mem_range, List.mem_range'_1,
    Prod.mk.injEq]
  constructor
  · rintro ⟨i, hi, j, ⟨hj1, hj2⟩, rfl, rfl⟩
    omega
  · rintro ⟨h1, h2⟩
    exact ⟨a, by omega, b, ⟨by omega, by omega⟩, rfl, rfl⟩

theorem filterMap_singleton {α β : Type} (f : α → Option β) (a : α) :
    List.filterMap f [a] = (f a).toList := by
  cases hfa : f a <;> simp [List.filterMap_cons, hfa]

namespace DuplicateChecker

theorem mem_detect_duplicates {c : DuplicateChecker} {df : List Row} {info : DupInfo} :
    info ∈ detect_duplicates c df ↔
      ∃ i j, i < j ∧ j < df.length ∧ isDuplicate c (rowAt df i) (rowAt df j) ∧
        info = dupInfoOf df i j := by
  unfold detect_duplicates
  rw [List.mem_filterMap]
  constructor
  · rintro ⟨⟨i, j⟩, hp, hf⟩
    rw [mem_pairIndices] at hp
    dsimp only at hf
    split at hf
    · next hd =>
      injection hf with hf
      exact ⟨i, j, hp.1, hp.2, hd, hf.symm⟩
    · exact Option.noConfusion hf
  · rintro ⟨i, j, hij, hj, hd, rfl⟩
    refine ⟨(i, j), mem_pairIndices.2 ⟨hij, hj⟩, ?_⟩
    dsimp only
    rw [if_pos hd]

theorem isDuplicate_of_dupInfoOf_eq {c : DuplicateChecker} {df : List Row}
    {i j i2 j2 : Nat} (h : dupInfoOf df i2 j2 = dupInfoOf df i j)
    (hd : isDuplicate c (rowAt df i2) (rowAt df j2)) :
    isDuplicate c (rowAt df i) (rowAt df j) := by
  simp only [dupInfoOf, DupInfo.mk.injEq, Loc.mk.injEq, Prod.mk.injEq] at h
  obtain ⟨⟨hid1, hn1, hla1, hlo1⟩, ⟨hid2, hn2, hla2, hlo2⟩, hs, hdm⟩ := h
  unfold isDuplicate at hd ⊢
  rw [← hn1, ← hn2, ← hla1, ← hlo1, ← hla2, ← hlo2]
  exact hd

theorem detect_pair_mem_iff (c : DuplicateChecker) (df : List Row) {i j : Nat}
    (hij : i < j) (hj : j < df.length) :
    dupInfoOf df i j ∈ detect_duplicates c df ↔
      isDuplicate c (rowAt df i) (rowAt df j) := by
  rw [mem_detect_duplicates]
  constructor
  · rintro ⟨i2, j2, hij2, hj2, hd2, heq⟩
    exact isDuplicate_of_dupInfoOf_eq heq.symm hd2
  · intro hd
    exact ⟨i, j, hij, hj, hd, rfl⟩

open Classical in
theorem detect_duplicates_two (c : DuplicateChecker) (r1 r2 : Row) :
    detect_duplicates c [r1, r2] =
      if isDuplicate c r1 r2 then [dupInfoOf [r1, r2] 0 1] else [] := by
  unfold detect_duplicates
  rw [show pairIndices ([r1, r2] : List Row).length = [(0, 1)] from rfl]
  rw [filterMap_singleton]
  show (if isDuplicate c (rowAt [r1, r2] 0) (rowAt [r1, r2] 1)
    then some (dupInfoOf [r1, r2] 0 1) else none).toList = _
  have e0 : rowAt [r1, r2] 0 = r1 := rfl
  have e1 : rowAt [r1, r2] 1 = r2 := rfl
  rw [e0, e1]
  by_cases hd : isDuplicate c r1 r2
  · rw [if_pos hd, if_pos hd]
    rfl
  · rw [if_neg hd, if_neg hd]
    rfl

theorem mem_clean_duplicates {df : List Row} {duplicates : List DupInfo} {r : Row} :
    r ∈ clean_duplicates df duplicates ↔
      r ∈ df ∧ ∀ d ∈ duplicates, d.location_2.id ≠ r.index := by
  unfold clean_duplicates
  rw [List.mem_filter]
  simp only [decide_eq_true_eq, List.mem_map]
  constructor
  · rintro ⟨hmem, hnot⟩
    refine ⟨hmem, ?_⟩
    intro d hd heq
    exact hnot ⟨d, hd, heq⟩
  · rintro ⟨hmem, hall⟩
    refine ⟨hmem, ?_⟩
    rintro ⟨d, hd, heq⟩
    exact hall d hd heq

theorem clean_duplicates_eq_self {df : List Row} {duplicates : List DupInfo}
    (h : ∀ d ∈ duplicates, ∀ r ∈ df, d.location_2.id ≠ r.index) :
    clean_duplicates df duplicates = df := by
  unfold clean_duplicates
  apply List.filter_eq_self.2
  intro r hr
  simp only [decide_eq_true_eq, List.mem_map]
  rintro ⟨d, hd, heq⟩
  exact h d hd r hr heq

end DuplicateChecker

/-- A pair references the identity x on either side. -/
def touches (d : DupInfo) (x : Int) : Prop :=
  d.location_1.id = x ∨ d.location_2.id = x

theorem length_filter_le_of_imp {α : Type} {P Q : α → Bool} :
    ∀ l : List α, (∀ e ∈ l, P e = true → Q e = true) →
      (l.filter P).length ≤ (l.filter Q).length := by
  intro l
  induction l with
  | nil => intro _; simp
  | cons a l ih =>
    intro himp
    have ih2 := ih fun e he => himp e (List.mem_cons_of_mem a he)
    rw [List.filter_cons, List.filter_cons]
    by_cases hPa : P a = true
    · rw [if_pos hPa, if_pos (himp a (List.mem_cons_self a l) hPa)]
      simp only [List.length_cons]
      omega
    · rw [if_neg hPa]
      by_cases hQa : Q a = true
      · rw [if_pos hQa]
        simp only [List.length_cons]
        omega
      · rw [if_neg hQa]
        exact ih2

theorem length_filter_lt_of_witness {α : Type} {P Q : α → Bool} {d : α}
    (hQ : Q d = true) (hP : P d = false) :
    ∀ l : List α, (∀ e ∈ l, P e = true → Q e = true) → d ∈ l →
      (l.filter P).length < (l.filter Q).length := by
  intro l
  induction l with
  | nil =>
    intro _ hd
    cases hd
  | cons a l ih =>
    intro himp hd
    rw [List.filter_cons, List.filter_cons]
    rcases List.mem_cons.1 hd with rfl | hd2
    · rw [if_neg (by simp [hP]), if_pos hQ]
      simp only [List.length_cons]
      have hle := length_filter_le_of_imp (P := P) (Q := Q) l
        fun e he => himp e (List.mem_cons_of_mem d he)
      omega
    · have ih2 := ih (fun e he => himp e (List.mem_cons_of_mem a he)) hd2
      by_cases hPa : P a = true
      · rw [if_pos hPa, if_pos (himp a (List.mem_cons_self a l) hPa)]
        simp only [List.length_cons]
        omega
      · rw [if_neg hPa]
        by_cases hQa : Q a = true
        · rw [if_pos hQa]
          simp only [List.length_cons]
          omega
        · rw [if_neg hQa]
          exact ih2

/-- Number of pairs whose first identity lies strictly below x, the
measure for the survivor search. -/
def pairsBelow (duplicates : List DupInfo) (x : Int) : Nat :=
  (duplicates.filter fun d => decide (d.location_1.id < x)).length

namespace DuplicateChecker

theorem exists_survivor (df : List Row) (duplicates : List DupInfo)
    (hord : ∀ d ∈ duplicates, d.location_1.id < d.location_2.id)
    (href : ∀ d ∈ duplicates, (∃ r ∈ df, r.index = d.location_1.id) ∧
      (∃ r ∈ df, r.index = d.location_2.id)) :
    ∀ x : Int, (∃ d ∈ duplicates, touches d x) →
      ∃ y : Int, linked duplicates x y ∧
        ∃ r ∈ clean_duplicates df duplicates, r.index = y := by
  have main : ∀ n : Nat, ∀ x : Int, pairsBelow duplicates x = n →
      (∃ d ∈ duplicates, touches d x) →
      ∃ y : Int, linked duplicates x y ∧
        ∃ r ∈ clean_duplicates df duplicates, r.index = y := by
    intro n
    induction n using Nat.strong_induction_on with
    | _ n ih =>
      intro x hx htouch
      by_cases hrem : ∃ d ∈ duplicates, d.location_2.id = x
      · obtain ⟨d, hd, hdx⟩ := hrem
        have ha : d.location_1.id < x := hdx ▸ hord d hd
        have hmeas : pairsBelow duplicates d.location_1.id < n := by
          rw [← hx]
          unfold pairsBelow
          apply length_filter_lt_of_witness (d := d)
          · exact decide_eq_true ha
          · simp
          · intro e he hpe
            simp only [decide_eq_true_eq] at hpe ⊢
            omega
          · exact hd
        have htouch2 : ∃ d2 ∈ duplicates, touches d2 d.location_1.id :=
          ⟨d, hd, Or.inl rfl⟩
        obtain ⟨y, hlink, hsurv⟩ :=
          ih (pairsBelow duplicates d.location_1.id) hmeas d.location_1.id rfl htouch2
        refine ⟨y, ?_, hsurv⟩
        exact Relation.ReflTransGen.head ⟨d, hd, Or.inr ⟨rfl, hdx⟩⟩ hlink
      · push_neg at hrem
        obtain ⟨d, hd, htd⟩ := htouch
        have hxrow : ∃ r ∈ df, r.index = x := by
          rcases htd with h1 | h2
          · exact h1 ▸ (href d hd).1
          · exact h2 ▸ (href d hd).2
        obtain ⟨r, hr, hrx⟩ := hxrow
        refine ⟨x, Relation.ReflTransGen.refl, r, ?_, hrx⟩
        rw [mem_clean_duplicates]
        exact ⟨hr, fun d2 hd2 heq => hrem d2 hd2 (heq.trans hrx)⟩
  intro x htouch
  exact main (pairsBelow duplicates x) x rfl htouch

theorem untouched_survives (df : List Row) (duplicates : List DupInfo) :
    ∀ r ∈ df, (∀ d ∈ duplicates, ¬ touches d r.index) →
      r ∈ clean_duplicates df duplicates := by
  intro r hr hall
  rw [mem_clean_duplicates]
  exact ⟨hr, fun d hd heq => hall d hd (Or.inr heq)⟩

end DuplicateChecker

namespace DuplicateChecker

/-- Claim C10: resolution is pure deletion, never attribute merging: the
cleaned collection returned by clean_duplicates is a sublist of the input
collection, so every surviving record is field-for-field identical to the
corresponding input record and the original order is preserved. -/
theorem clean_duplicates_pure_deletion (df : List Row) (duplicates : List DupInfo) :
    List.Sublist (clean_duplicates df duplicates) df := by
  unfold clean_duplicates
  exact List.filter_sublist df

/-- Claim C9 (amended): calculate_distance implements the haversine
great-circle formula with Earth radius 6371000 m; it is symmetric in its
two endpoints, always non-negative, and equals zero whenever the two
coordinate pairs are identical.  Zero does not occur only at identical
pairs: distinct in-range coordinates at a pole also give zero, see the
counterexample. -/
theorem calculate_distance_props :
    (∀ lat1 lon1 lat2 lon2 : ℝ, calculate_distance lat1 lon1 lat2 lon2 =
      calculate_distance lat2 lon2 lat1 lon1) ∧
    (∀ lat1 lon1 lat2 lon2 : ℝ, 0 ≤ calculate_distance lat1 lon1 lat2 lon2) ∧
    (∀ lat lon : ℝ, calculate_distance lat lon lat lon = 0) :=
  ⟨calculate_distance_comm, calculate_distance_nonneg, calculate_distance_self⟩

/-- Claim C9 counterexample: the two in-range coordinate pairs (90, 0)
and (90, 10) are distinct, yet their haversine distance is zero, so
distance zero is not equivalent to the coordinate pairs being
identical. -/
theorem calculate_distance_zero_at_distinct_points :
    calculate_distance 90 0 90 10 = 0 ∧
    ((90 : ℝ), (0 : ℝ)) ≠ ((90 : ℝ), (10 : ℝ)) := by
  refine ⟨calculate_distance_pole_zero, ?_⟩
  intro h
  have h2 := congrArg Prod.snd h
  norm_num at h2

/-- Claim C8: the similarity scorer is case-insensitive (lowercasing the
inputs does not change the score), symmetric, scores 100 on any non-empty
string against itself, scores two empty strings 100, and scores an empty
against a non-empty string 0. -/
theorem calculate_similarity_laws :
    (∀ a b : String, calculate_similarity a b = calculate_similarity b a) ∧
    (∀ a b : String, calculate_similarity a b =
      calculate_similarity (lowerStr a) (lowerStr b)) ∧
    (∀ a : String, a ≠ "" → calculate_similarity a a = 100) ∧
    calculate_similarity "" "" = 100 ∧
    (∀ a : String, a ≠ "" →
      calculate_similarity "" a = 0 ∧ calculate_similarity a "" = 0) := by
  refine ⟨calculate_similarity_comm, calculate_similarity_lower,
    fun a ha => calculate_similarity_self ha, ?_, ?_⟩
  · unfold calculate_similarity
    exact fuzzRatio_empty_empty
  · intro a ha
    have hla : lowerStr a ≠ "" := (not_iff_not.2 (lowerStr_empty_iff a)).2 ha
    constructor
    · unfold calculate_similarity
      rw [show lowerStr "" = "" from rfl]
      exact fuzzRatio_empty_left hla
    · unfold calculate_similarity
      rw [show lowerStr "" = "" from rfl]
      exact fuzzRatio_empty_right hla

/-- Claim C8 witness: the laws evaluated at concrete strings. -/
theorem calculate_similarity_laws_witness :
    calculate_similarity "Ab" "ab" = calculate_similarity "ab" "Ab" ∧
    ("a" : String) ≠ "" ∧ calculate_similarity "a" "a" = 100 ∧
    calculate_similarity "" "a" = 0 :=
  ⟨calculate_similarity_laws.1 "Ab" "ab", by decide,
    calculate_similarity_laws.2.2.1 "a" (by decide),
    (calculate_similarity_laws.2.2.2.2 "a" (by decide)).1⟩

/-- Claim C6 (amended): a DuplicatePair whose location_2 id matches no
index label of the working collection is silently ignored: the removal
filter matches nothing, clean_duplicates returns normally, and no error
of any kind is reported.  (The source has no check on the ids at all.) -/
theorem clean_duplicates_unknown_ids_ignored (df : List Row)
    (duplicates : List DupInfo)
    (h : ∀ d ∈ duplicates, ∀ r ∈ df, d.location_2.id ≠ r.index) :
    clean_duplicates df duplicates = df :=
  clean_duplicates_eq_self h

/-- Claim C6 witness: a pair referencing the unknown identity 99 leaves
the single-record collection unchanged. -/
theorem clean_duplicates_unknown_ids_ignored_witness :
    (∀ d ∈ ([⟨⟨99, "X", (0, 0)⟩, ⟨99, "X", (0, 0)⟩, 100, 0⟩] : List DupInfo),
      ∀ r ∈ ([⟨0, some 1, "Kopi", 0, 0, []⟩] : List Row),
        d.location_2.id ≠ r.index) ∧
    clean_duplicates [⟨0, some 1, "Kopi", 0, 0, []⟩]
      [⟨⟨99, "X", (0, 0)⟩, ⟨99, "X", (0, 0)⟩, 100, 0⟩] =
      [⟨0, some 1, "Kopi", 0, 0, []⟩] := by
  have h : ∀ d ∈ ([⟨⟨99, "X", (0, 0)⟩, ⟨99, "X", (0, 0)⟩, 100, 0⟩] : List DupInfo),
      ∀ r ∈ ([⟨0, some 1, "Kopi", 0, 0, []⟩] : List Row),
        d.location_2.id ≠ r.index := by
    intro d hd r hr
    rw [List.mem_singleton] at hd hr
    subst hd
    subst hr
    decide
  exact ⟨h, clean_duplicates_unknown_ids_ignored _ _ h⟩

/-- Claim C6 counterexample: given a pair referencing the identity 99
absent from the collection, clean_duplicates returns normally with the
collection unchanged; the run is not aborted and no error is raised, so
the unknown identity is silently skipped. -/
theorem clean_duplicates_unknown_id_returns_normally :
    clean_duplicates [⟨0, some 1, "Kopi", 0, 0, []⟩]
      [⟨⟨1, "Kopi", (0, 0)⟩, ⟨99, "Kopi", (0, 0)⟩, 100, 0⟩] =
      [⟨0, some 1, "Kopi", 0, 0, []⟩] := by
  rfl

end DuplicateChecker

/-- Failing input of claim C1: a CSV-loaded dataframe has the 0-based
range index while the generator assigns the 1-based id column, here two
rows describing the same coffee shop. -/
def dfKopi : List Row :=
  [⟨0, some 1, "Kopi Kenangan Sudirman", -6, 106, []⟩,
   ⟨1, some 2, "Kopi Kenangan Sudirman", -6, 106, []⟩]

namespace DuplicateChecker

/-- Claim C1: evaluation at the failing input.  The detector flags the
pair and marks id_b equal 2 (the id column value of the second row), but
clean_duplicates filters on the dataframe index labels 0 and 1, so no row
matches and the flagged duplicate survives: the cleaned collection is not
the input minus the records whose identities were marked for removal. -/
theorem clean_duplicates_misses_flagged_duplicate :
    detect_duplicates (DuplicateChecker.init none) dfKopi = [dupInfoOf dfKopi 0 1] ∧
    (dupInfoOf dfKopi 0 1).location_2.id = 2 ∧
    clean_duplicates dfKopi [dupInfoOf dfKopi 0 1] = dfKopi := by
  have hdup : isDuplicate (DuplicateChecker.init none)
      ⟨0, some 1, "Kopi Kenangan Sudirman", -6, 106, []⟩
      ⟨1, some 2, "Kopi Kenangan Sudirman", -6, 106, []⟩ := by
    constructor
    · show (DuplicateChecker.init none).name_similarity_threshold ≤
        calculate_similarity "Kopi Kenangan Sudirman" "Kopi Kenangan Sudirman"
      rw [calculate_similarity_self (by decide)]
      norm_num [DuplicateChecker.init]
    · show calculate_distance (-6) 106 (-6) 106 ≤
        (DuplicateChecker.init none).distance_threshold
      rw [calculate_distance_self]
      norm_num [DuplicateChecker.init]
  refine ⟨?_, rfl, ?_⟩
  · show detect_duplicates (DuplicateChecker.init none)
      [⟨0, some 1, "Kopi Kenangan Sudirman", -6, 106, []⟩,
       ⟨1, some 2, "Kopi Kenangan Sudirman", -6, 106, []⟩] = [dupInfoOf dfKopi 0 1]
    rw [detect_duplicates_two, if_pos hdup]
    rfl
  · rfl

end DuplicateChecker

namespace DuplicateChecker

/-- Claim C2: for every checker state (any configured thresholds) and
every pair of valid records at positions i before j of the collection,
the pair is reported as a duplicate if and only if the name similarity is
at least the name threshold and the distance is at most the distance
threshold.  Both comparisons are non-strict, so similarity exactly at the
name threshold together with distance exactly at the distance threshold
is classified as a duplicate: both boundaries are inclusive. -/
theorem detect_duplicates_threshold_iff (c : DuplicateChecker) (df : List Row)
    {i j : Nat} (hij : i < j) (hj : j < df.length)
    (_hvi : isValidRecord (rowAt df i)) (_hvj : isValidRecord (rowAt df j)) :
    dupInfoOf df i j ∈ detect_duplicates c df ↔
      (c.name_similarity_threshold ≤
          calculate_similarity (rowAt df i).name (rowAt df j).name ∧
        calculate_distance (rowAt df i).latitude (rowAt df i).longitude
          (rowAt df j).latitude (rowAt df j).longitude ≤ c.distance_threshold) :=
  detect_pair_mem_iff c df hij hj

/-- Claim C2 witness: the classification equivalence at a concrete
two-record collection with the default thresholds. -/
theorem detect_duplicates_threshold_iff_witness :
    dupInfoOf [⟨0, some 1, "Sudirman", 0, 0, []⟩, ⟨1, some 2, "Sudirman", 0, 0, []⟩] 0 1 ∈
      detect_duplicates (DuplicateChecker.init none)
        [⟨0, some 1, "Sudirman", 0, 0, []⟩, ⟨1, some 2, "Sudirman", 0, 0, []⟩] ↔
      ((DuplicateChecker.init none).name_similarity_threshold ≤
          calculate_similarity
            (rowAt [⟨0, some 1, "Sudirman", 0, 0, []⟩, ⟨1, some 2, "Sudirman", 0, 0, []⟩] 0).name
            (rowAt [⟨0, some 1, "Sudirman", 0, 0, []⟩, ⟨1, some 2, "Sudirman", 0, 0, []⟩] 1).name ∧
        calculate_distance
          (rowAt [⟨0, some 1, "Sudirman", 0, 0, []⟩, ⟨1, some 2, "Sudirman", 0, 0, []⟩] 0).latitude
          (rowAt [⟨0, some 1, "Sudirman", 0, 0, []⟩, ⟨1, some 2, "Sudirman", 0, 0, []⟩] 0).longitude
          (rowAt [⟨0, some 1, "Sudirman", 0, 0, []⟩, ⟨1, some 2, "Sudirman", 0, 0, []⟩] 1).latitude
          (rowAt [⟨0, some 1, "Sudirman", 0, 0, []⟩, ⟨1, some 2, "Sudirman", 0, 0, []⟩] 1).longitude ≤
          (DuplicateChecker.init none).distance_threshold) := by
  apply detect_duplicates_threshold_iff
  · decide
  · decide
  · show ("Sudirman" : String) ≠ "" ∧ (-90 : ℝ) ≤ 0 ∧ (0 : ℝ) ≤ 90 ∧
      (-180 : ℝ) ≤ 0 ∧ (0 : ℝ) ≤ 180
    exact ⟨by decide, by norm_num, by norm_num, by norm_num, by norm_num⟩
  · show ("Sudirman" : String) ≠ "" ∧ (-90 : ℝ) ≤ 0 ∧ (0 : ℝ) ≤ 90 ∧
      (-180 : ℝ) ≤ 0 ∧ (0 : ℝ) ≤ 180
    exact ⟨by decide, by norm_num, by norm_num, by norm_num, by norm_num⟩

/-- Claim C7 (amended): the detector performs no validation at all: for
every checker and every pair of positions i before j, well-formed or
malformed, the pair is scored and reported exactly according to the
threshold test; a record with an out-of-range coordinate or any name is
never rejected and never raises a per-record validation error. -/
theorem detect_duplicates_no_validation (c : DuplicateChecker) (df : List Row)
    {i j : Nat} (hij : i < j) (hj : j < df.length) :
    dupInfoOf df i j ∈ detect_duplicates c df ↔
      isDuplicate c (rowAt df i) (rowAt df j) :=
  detect_pair_mem_iff c df hij hj

/-- Claim C7 witness: the no-validation equivalence instantiated at a
collection whose records carry the out-of-range latitude 999. -/
theorem detect_duplicates_no_validation_witness :
    dupInfoOf [⟨0, some 1, "Kopi", 999, 0, []⟩, ⟨1, some 2, "Kopi", 999, 0, []⟩] 0 1 ∈
      detect_duplicates (DuplicateChecker.init none)
        [⟨0, some 1, "Kopi", 999, 0, []⟩, ⟨1, some 2, "Kopi", 999, 0, []⟩] ↔
      isDuplicate (DuplicateChecker.init none)
        (rowAt [⟨0, some 1, "Kopi", 999, 0, []⟩, ⟨1, some 2, "Kopi", 999, 0, []⟩] 0)
        (rowAt [⟨0, some 1, "Kopi", 999, 0, []⟩, ⟨1, some 2, "Kopi", 999, 0, []⟩] 1) :=
  detect_duplicates_no_validation (DuplicateChecker.init none)
    [⟨0, some 1, "Kopi", 999, 0, []⟩, ⟨1, some 2, "Kopi", 999, 0, []⟩]
    (by decide) (by decide)

/-- Claim C7 counterexample: records with the malformed latitude 999 are
not rejected before scoring: the detector scores the pair and returns a
duplicate verdict for it, so no validation error is reported for the
offending records. -/
theorem detect_duplicates_flags_out_of_range :
    detect_duplicates (DuplicateChecker.init none)
      [⟨0, some 1, "Kopi", 999, 0, []⟩, ⟨1, some 2, "Kopi", 999, 0, []⟩] =
      [dupInfoOf [⟨0, some 1, "Kopi", 999, 0, []⟩, ⟨1, some 2, "Kopi", 999, 0, []⟩] 0 1] ∧
    ¬ isValidRecord
      (rowAt [⟨0, some 1, "Kopi", 999, 0, []⟩, ⟨1, some 2, "Kopi", 999, 0, []⟩] 0) := by
  have hdup : isDuplicate (DuplicateChecker.init none)
      ⟨0, some 1, "Kopi", 999, 0, []⟩ ⟨1, some 2, "Kopi", 999, 0, []⟩ := by
    constructor
    · show (DuplicateChecker.init none).name_similarity_threshold ≤
        calculate_similarity "Kopi" "Kopi"
      rw [calculate_similarity_self (by decide)]
      norm_num [DuplicateChecker.init]
    · show calculate_distance 999 0 999 0 ≤
        (DuplicateChecker.init none).distance_threshold
      rw [calculate_distance_self]
      norm_num [DuplicateChecker.init]
  constructor
  · rw [detect_duplicates_two, if_pos hdup]
  · intro hv
    have h2 : (999 : ℝ) ≤ 90 := hv.2.2.1
    norm_num at h2

open Classical in
/-- Claim C5: the two detection thresholds are configuration of the
checker state: the constructor sets the defaults 85 and 50; the verdicts
of detect_duplicates are governed exactly by the threshold fields of the
checker value supplied at the invocation (checkers that agree on both
thresholds produce identical verdicts whatever their engines); and the
thresholds are not fixed constants of the detector: a checker carrying
other threshold values produces different verdicts. -/
theorem thresholds_configurable :
    (∀ e : Option Unit, (DuplicateChecker.init e).name_similarity_threshold = 85 ∧
      (DuplicateChecker.init e).distance_threshold = 50) ∧
    (∀ c1 c2 : DuplicateChecker,
      c1.name_similarity_threshold = c2.name_similarity_threshold →
      c1.distance_threshold = c2.distance_threshold →
      ∀ df : List Row, detect_duplicates c1 df = detect_duplicates c2 df) ∧
    (∃ c : DuplicateChecker, c.engine = (DuplicateChecker.init none).engine ∧
      ∃ df : List Row,
        detect_duplicates c df ≠ detect_duplicates (DuplicateChecker.init none) df) := by
  refine ⟨fun e => ⟨rfl, rfl⟩, ?_, ?_⟩
  · intro c1 c2 h1 h2 df
    unfold detect_duplicates
    congr 1
    funext p
    have hiff : isDuplicate c1 (rowAt df p.1) (rowAt df p.2) ↔
        isDuplicate c2 (rowAt df p.1) (rowAt df p.2) := by
      unfold isDuplicate
      rw [h1, h2]
    exact if_congr hiff rfl rfl
  · refine ⟨⟨none, 85, -1⟩, rfl,
      [⟨0, some 1, "a", 0, 0, []⟩, ⟨1, some 2, "a", 0, 0, []⟩], ?_⟩
    have hdup : isDuplicate (DuplicateChecker.init none)
        ⟨0, some 1, "a", 0, 0, []⟩ ⟨1, some 2, "a", 0, 0, []⟩ := by
      constructor
      · show (DuplicateChecker.init none).name_similarity_threshold ≤
          calculate_similarity "a" "a"
        rw [calculate_similarity_self (by decide)]
        norm_num [DuplicateChecker.init]
      · show calculate_distance 0 0 0 0 ≤ (DuplicateChecker.init none).distance_threshold
        rw [calculate_distance_self]
        norm_num [DuplicateChecker.init]
    have hnot : ¬ isDuplicate ⟨none, 85, -1⟩
        ⟨0, some 1, "a", 0, 0, []⟩ ⟨1, some 2, "a", 0, 0, []⟩ := by
      rintro ⟨hs, hd⟩
      have hle : calculate_distance 0 0 0 0 ≤ (-1 : ℝ) := hd
      rw [calculate_distance_self] at hle
      norm_num at hle
    rw [detect_duplicates_two, detect_duplicates_two, if_pos hdup, if_neg hnot]
    simp

/-- Claim C5 witness: the defaults of a freshly constructed checker, and
equal verdicts for two checkers agreeing on the thresholds. -/
theorem thresholds_configurable_witness :
    (DuplicateChecker.init none).name_similarity_threshold = 85 ∧
    (DuplicateChecker.init none).distance_threshold = 50 ∧
    detect_duplicates (DuplicateChecker.init none) [] =
      detect_duplicates (DuplicateChecker.init (some ())) [] :=
  ⟨(thresholds_configurable.1 none).1, (thresholds_configurable.1 none).2,
    thresholds_configurable.2.1 (DuplicateChecker.init none)
      (DuplicateChecker.init (some ())) rfl rfl []⟩

end DuplicateChecker

namespace DuplicateChecker

/-- Claim C3 (amended): when record identities coincide with the
dataframe index labels, every flagged pair lists the smaller identity as
location_1 (the detector's scan order does this), and every pair
references identities present in the collection, then the cleaned
collection retains at least one record from every connected group of
mutually-flagged records, and removes no record participating in zero
flagged pairs.  The group does not collapse to exactly one survivor in
general: see the counterexample, where one connected group keeps two
records. -/
theorem clean_duplicates_group_survivors (df : List Row) (duplicates : List DupInfo)
    (_hid : ∀ r ∈ df, r.id = some r.index)
    (hord : ∀ d ∈ duplicates, d.location_1.id < d.location_2.id)
    (href : ∀ d ∈ duplicates, (∃ r ∈ df, r.index = d.location_1.id) ∧
      (∃ r ∈ df, r.index = d.location_2.id)) :
    (∀ x : Int, (∃ d ∈ duplicates, touches d x) →
      ∃ y : Int, linked duplicates x y ∧
        ∃ r ∈ clean_duplicates df duplicates, r.index = y) ∧
    (∀ r ∈ df, (∀ d ∈ duplicates, ¬ touches d r.index) →
      r ∈ clean_duplicates df duplicates) :=
  ⟨exists_survivor df duplicates hord href, untouched_survives df duplicates⟩

/-- Claim C3 witness: a two-record collection with one flagged pair; the
group of record 0 keeps a survivor in the cleaned collection. -/
theorem clean_duplicates_group_survivors_witness :
    (∀ d ∈ ([⟨⟨0, "A", (0, 0)⟩, ⟨1, "B", (0, 0)⟩, 100, 0⟩] : List DupInfo),
      d.location_1.id < d.location_2.id) ∧
    (∃ y : Int, linked [⟨⟨0, "A", (0, 0)⟩, ⟨1, "B", (0, 0)⟩, 100, 0⟩] 0 y ∧
      ∃ r ∈ clean_duplicates [⟨0, some 0, "A", 0, 0, []⟩, ⟨1, some 1, "B", 0, 0, []⟩]
        [⟨⟨0, "A", (0, 0)⟩, ⟨1, "B", (0, 0)⟩, 100, 0⟩], r.index = y) := by
  have hid : ∀ r ∈ ([⟨0, some 0, "A", 0, 0, []⟩, ⟨1, some 1, "B", 0, 0, []⟩] : List Row),
      r.id = some r.index := by
    intro r hr
    rcases List.mem_cons.1 hr with rfl | hr2
    · rfl
    · rw [List.mem_singleton] at hr2
      subst hr2
      rfl
  have hord : ∀ d ∈ ([⟨⟨0, "A", (0, 0)⟩, ⟨1, "B", (0, 0)⟩, 100, 0⟩] : List DupInfo),
      d.location_1.id < d.location_2.id := by
    intro d hd
    rw [List.mem_singleton] at hd
    subst hd
    decide
  have href : ∀ d ∈ ([⟨⟨0, "A", (0, 0)⟩, ⟨1, "B", (0, 0)⟩, 100, 0⟩] : List DupInfo),
      (∃ r ∈ ([⟨0, some 0, "A", 0, 0, []⟩, ⟨1, some 1, "B", 0, 0, []⟩] : List Row),
        r.index = d.location_1.id) ∧
      (∃ r ∈ ([⟨0, some 0, "A", 0, 0, []⟩, ⟨1, some 1, "B", 0, 0, []⟩] : List Row),
        r.index = d.location_2.id) := by
    intro d hd
    rw [List.mem_singleton] at hd
    subst hd
    exact ⟨⟨⟨0, some 0, "A", 0, 0, []⟩, List.mem_cons_self _ _, rfl⟩,
      ⟨⟨1, some 1, "B", 0, 0, []⟩, List.mem_cons_of_mem _ (List.mem_cons_self _ _), rfl⟩⟩
  refine ⟨hord, ?_⟩
  exact (clean_duplicates_group_survivors _ _ hid hord href).1 0
    ⟨⟨⟨0, "A", (0, 0)⟩, ⟨1, "B", (0, 0)⟩, 100, 0⟩, List.mem_cons_self _ _, Or.inl rfl⟩

/-- Claim C3 counterexample: four records with identities equal to their
index labels and flagged pairs (1, 3) and (2, 3).  Records 1 and 2 lie in
the same connected group (both flagged against 3), yet the cleaned
collection retains both of them: a connected group of mutually-flagged
records does not collapse to exactly one survivor. -/
theorem clean_duplicates_two_survivors_same_group :
    linked [⟨⟨1, "B", (0, 0)⟩, ⟨3, "D", (0, 0)⟩, 100, 0⟩,
      ⟨⟨2, "C", (0, 0)⟩, ⟨3, "D", (0, 0)⟩, 100, 0⟩] 1 2 ∧
    clean_duplicates
      [⟨0, some 0, "A", 0, 0, []⟩, ⟨1, some 1, "B", 0, 0, []⟩,
       ⟨2, some 2, "C", 0, 0, []⟩, ⟨3, some 3, "D", 0, 0, []⟩]
      [⟨⟨1, "B", (0, 0)⟩, ⟨3, "D", (0, 0)⟩, 100, 0⟩,
       ⟨⟨2, "C", (0, 0)⟩, ⟨3, "D", (0, 0)⟩, 100, 0⟩] =
      [⟨0, some 0, "A", 0, 0, []⟩, ⟨1, some 1, "B", 0, 0, []⟩,
       ⟨2, some 2, "C", 0, 0, []⟩] := by
  constructor
  · have e1 : pairEdge ([⟨⟨1, "B", (0, 0)⟩, ⟨3, "D", (0, 0)⟩, 100, 0⟩,
        ⟨⟨2, "C", (0, 0)⟩, ⟨3, "D", (0, 0)⟩, 100, 0⟩] : List DupInfo) 1 3 :=
      ⟨⟨⟨1, "B", (0, 0)⟩, ⟨3, "D", (0, 0)⟩, 100, 0⟩,
        List.mem_cons_self _ _, Or.inl ⟨rfl, rfl⟩⟩
    have e2 : pairEdge ([⟨⟨1, "B", (0, 0)⟩, ⟨3, "D", (0, 0)⟩, 100, 0⟩,
        ⟨⟨2, "C", (0, 0)⟩, ⟨3, "D", (0, 0)⟩, 100, 0⟩] : List DupInfo) 3 2 :=
      ⟨⟨⟨2, "C", (0, 0)⟩, ⟨3, "D", (0, 0)⟩, 100, 0⟩,
        List.mem_cons_of_mem _ (List.mem_cons_self _ _), Or.inr ⟨rfl, rfl⟩⟩
    exact Relation.ReflTransGen.head e1 (Relation.ReflTransGen.single e2)
  · rfl

/-- Claim C4 (amended): save_to_database writes the collection to a local
CSV file whenever the durable store is unavailable or the write fails,
but no path surfaces the failure to the caller (the function swallows the
exception and returns None on every path); log_duplicates_to_db never
writes a fallback file and also never surfaces a failure, so audit
decisions are dropped with at most a printed warning. -/
theorem persistence_fallback_not_surfaced (c : DuplicateChecker) (storeOk : Bool)
    (df : List Row) (duplicates : List DupInfo) :
    ((c.engine = none ∨ storeOk = false) →
      (save_to_database c storeOk df).fileWrites = [df] ∧
      (save_to_database c storeOk df).dbReplaced = none) ∧
    (save_to_database c storeOk df).raised = none ∧
    (log_duplicates_to_db c storeOk duplicates).fileWrites = [] ∧
    (log_duplicates_to_db c storeOk duplicates).raised = none := by
  obtain ⟨eng, tn, td⟩ := c
  cases eng <;> cases storeOk <;> cases duplicates <;>
    simp [save_to_database, log_duplicates_to_db]

/-- Claim C4 witness: the amended statement at a checker with no engine
and a failing store. -/
theorem persistence_fallback_not_surfaced_witness :
    ((DuplicateChecker.init none).engine = none ∨ (false = false)) ∧
    (save_to_database (DuplicateChecker.init none) false []).fileWrites =
      [([] : List Row)] ∧
    (save_to_database (DuplicateChecker.init none) false []).raised = none ∧
    (log_duplicates_to_db (DuplicateChecker.init none) false []).fileWrites = [] := by
  have h := persistence_fallback_not_surfaced (DuplicateChecker.init none) false [] []
  exact ⟨Or.inl rfl, (h.1 (Or.inl rfl)).1, h.2.1, h.2.2.1⟩

/-- Claim C4 counterexample: an attempt to persist one audit decision
while the durable store is unavailable (no engine) performs no fallback
file write, prints nothing, inserts nothing and raises nothing: the
decision is lost in complete silence, so the persistence attempt neither
falls back to a local file nor surfaces its degraded status. -/
theorem audit_decisions_lost_silently :
    log_duplicates_to_db (DuplicateChecker.init none) true
      [⟨⟨1, "A", (0, 0)⟩, ⟨2, "B", (0, 0)⟩, 100, 0⟩] =
      ⟨[], [], [], none⟩ := rfl

end DuplicateChecker
